import Mathlib

/-!
Shallow embedding of the Amazing chat-room server (src/app.py): the session
registry (`online_users`), the bounded message log (`chat_history`), the
Socket.IO event handlers `handle_join`, `handle_message`, `handle_leave` and
`handle_disconnect`, and the HTTP endpoint `check_username`.

Python strings are modelled as Lean `String`; timestamps are abstracted to
naturals supplied by the caller; the Socket.IO `emit` calls are modelled as an
explicit list of outbound deliveries (`Out`).
-/

namespace AmazingChat

/-- Characters removed by Python's `str.strip()`; the ASCII whitespace
repertoire, which is all this program ever meets. -/
def pySpace (c : Char) : Bool :=
  c = ' ' || c = '\t' || c = '\n' || c = '\r' || c = '\x0b' || c = '\x0c'

/-- Python `s.strip()` on a character list. -/
def pyStripList (l : List Char) : List Char :=
  ((l.dropWhile pySpace).reverse.dropWhile pySpace).reverse

/-- Python `s.strip()`. -/
def pyStrip (s : String) : String := ⟨pyStripList s.toList⟩

/-- Models Python's `str.isalnum()` on the character repertoire this program
handles: ASCII digits and letters plus the CJK Unified Ideographs block
(U+4E00..U+9FFF), which Python classifies as alphabetic. -/
def pyIsAlnum (c : Char) : Bool :=
  ('0' ≤ c && c ≤ '9') || ('a' ≤ c && c ≤ 'z') || ('A' ≤ c && c ≤ 'Z') ||
  ('一' ≤ c && c ≤ '鿿')

/-- Python `s.startswith(pre)`. -/
def pyStartsWith (s pre : String) : Bool :=
  s.toList.take pre.toList.length == pre.toList

/-- Python `s.split(' ', 1)` on a character list: the part before the first
space and, when a space occurs, the remainder after it. -/
def splitOnce : List Char → List Char × Option (List Char)
  | [] => ([], none)
  | c :: cs =>
      if c = ' ' then ([], some cs)
      else
        match splitOnce cs with
        | (h, r) => (c :: h, r)

/-- Python `message.split(' ', 1)` on strings. -/
def splitOnceStr (s : String) : String × Option String :=
  match splitOnce s.toList with
  | (h, none) => (⟨h⟩, none)
  | (h, some r) => (⟨h⟩, some ⟨r⟩)

/-- The literal string `' _一-龥'` that src/app.py lines 64 and 149
test characters against with Python's `in`: a membership test in a
five-character string (space, underscore, U+4E00, hyphen-minus, U+9FA5), not a
character range. -/
def nameExtraChars : List Char := " _一-龥".toList

/-- Character kept by the name-cleaning comprehension
`c.isalnum() or c in ' _一-龥'`. -/
def nameFilterKeep (c : Char) : Bool := pyIsAlnum c || nameExtraChars.contains c

/-- Name normalisation used by `handle_join` (src/app.py lines 148-149) and
the `/chat` route (lines 63-64): `username.strip()[:30]` followed by the
character filter. -/
def cleanName (s : String) : String :=
  ⟨((pyStrip s).toList.take 30).filter nameFilterKeep⟩

/-- One registered user, the value `online_users[name]`: the Socket.IO session
id (`request.sid`) and the `joined_at` timestamp. -/
structure Session where
  sid : Nat
  joined_at : Nat
deriving DecidableEq

/-- The `online_users` dict: an insertion-ordered association list with unique
keys, exactly the way the handlers use Python's dict. -/
abbrev Registry := List (String × Session)

/-- Python `k in d`. -/
def dictHas (d : Registry) (k : String) : Bool := d.any (fun p => p.1 == k)

/-- Python `d[k]` as an optional lookup. -/
def dictGet (d : Registry) (k : String) : Option Session :=
  (d.find? (fun p => p.1 == k)).map (·.2)

/-- Python `d[k] = v`: updates in place when the key exists, appends
otherwise (insertion order preserved, as in a Python dict). -/
def dictSet (d : Registry) (k : String) (v : Session) : Registry :=
  if dictHas d k then d.map (fun p => if p.1 == k then (k, v) else p)
  else d ++ [(k, v)]

/-- Python `del d[k]`. -/
def dictErase (d : Registry) (k : String) : Registry :=
  d.filter (fun p => !(p.1 == k))

/-- Optional structured payload of a chat event: `special_data` is
`{'url': ...}` for movie messages and `{'question': ...}` for AI messages. -/
inductive SpecialData where
  | url (u : String)
  | question (q : String)
deriving DecidableEq

/-- One entry of `chat_history` / one `new_message` payload. -/
structure ChatMsg where
  type : String
  username : Option String
  message : String
  timestamp : Nat
  special_data : Option SpecialData
deriving DecidableEq

/-- Outbound deliveries produced by a handler, in emission order. -/
inductive Out where
  /-- emit('error', ...) to the requesting connection only. -/
  | errorTo (sid : Nat) (message : String)
  /-- emit('kicked', ...) point-to-point to the superseded connection. -/
  | kicked (sid : Nat)
  /-- emit('history', ...) to the joining connection only. -/
  | histTo (sid : Nat) (messages : List ChatMsg)
  /-- emit('user_joined', ...) broadcast to everyone. -/
  | userJoined (username : String) (users : List String) (welcome : ChatMsg)
  /-- emit('user_left', ...) broadcast to everyone except the sender. -/
  | userLeft (exceptSid : Nat) (username : String) (users : List String)
  /-- emit('new_message', ...) broadcast to the room. -/
  | newMessageAll (m : ChatMsg)
  /-- emit('new_message', ...) to a single connection (room=request.sid). -/
  | newMessageTo (sid : Nat) (m : ChatMsg)
deriving DecidableEq

/-- The server's global mutable state. -/
structure ServerState where
  online_users : Registry
  chat_history : List ChatMsg
deriving DecidableEq

/-- Append to `chat_history` followed by the cap check
`if len(chat_history) > 100: chat_history.pop(0)` — the code sequence that
guards every log append in src/app.py (lines 181-185, 315-319, 346-350). -/
def historyAppend (h : List ChatMsg) (m : ChatMsg) : List ChatMsg :=
  if (h ++ [m]).length > 100 then (h ++ [m]).drop 1 else h ++ [m]

/-- The welcome text `f'欢迎 {username} 加入聊天室！'`. -/
def welcomeText (username : String) : String :=
  "欢迎 " ++ username ++ " 加入聊天室！"

/-- The `join` Socket.IO handler (src/app.py lines 129-208). The payload is
`none` for a malformed event (not a dict / missing or non-string username). -/
def handle_join (st : ServerState) (sid now : Nat) (payload : Option String) :
    ServerState × List Out :=
  match payload with
  | none => (st, [.errorTo sid "无效的加入请求"])
  | some username =>
    if pyStrip username = "" then (st, [.errorTo sid "用户名不能为空"])
    else
      let uname := cleanName username
      let kickOuts : List Out :=
        match dictGet st.online_users uname with
        | some old => if old.sid ≠ sid then [.kicked old.sid] else []
        | none => []
      let users2 := dictSet st.online_users uname ⟨sid, now⟩
      let welcome : ChatMsg :=
        { type := "system", username := none, message := welcomeText uname,
          timestamp := now, special_data := none }
      let hist2 := historyAppend st.chat_history welcome
      ({ online_users := users2, chat_history := hist2 },
       kickOuts ++ [.histTo sid hist2, .userJoined uname (users2.map Prod.fst) welcome])

/-- Message validation of `handle_message` (src/app.py lines 230-240): reject
an empty message, strip it, reject if blank after stripping, then cap at 500
characters appending the `'...'` truncation marker. Returns `none` when the
message is silently dropped. -/
def preprocessMessage (message0 : String) : Option String :=
  if message0 = "" then none
  else
    let m1 := pyStrip message0
    if m1 = "" then none
    else some (if m1.toList.length > 500 then (⟨m1.toList.take 500⟩ : String) ++ "..." else m1)

/-- URL normalisation of the movie command (src/app.py lines 255-257):
prepend `'http://'` unless the URL already starts with `'http://'` or
`'https://'`. -/
def addScheme (u : String) : String :=
  if pyStartsWith u "http://" || pyStartsWith u "https://" then u
  else "http://" ++ u

/-- The instructional fallback text for a movie command with no argument. -/
def movieHelpText : String := "请提供电影URL，格式：@电影 <url>"

/-- The instructional fallback text for an AI command with no argument. -/
def aiHelpText : String := "请提供要问川小农的问题，格式：@川小农 <问题>"

/-- The text of the error notice sent when the AI responder fails. -/
def aiFailText : String := "AI助手暂时无法响应，请稍后再试"

/-- The `send_message` Socket.IO handler (src/app.py lines 210-363). The
payload is `none` for a malformed event, otherwise `(username, message)`.
The keyword-matching answer generator (lines 270-312) is the opaque
`Responder` collaborator, passed in as `responder`; `responder q = none`
models its invocation raising, which the source catches at lines 323-331. -/
def handle_message (responder : String → Option String) (st : ServerState)
    (sid now : Nat) (payload : Option (String × String)) :
    ServerState × List Out :=
  match payload with
  | none => (st, [])
  | some (username, message0) =>
    if dictHas st.online_users username = false then
      (st, [.errorTo sid "请先加入聊天室"])
    else
      match preprocessMessage message0 with
      | none => (st, [])
      | some message =>
        if pyStartsWith message "@电影" then
          match (splitOnceStr message).2 with
          | some rest =>
            let msg_obj : ChatMsg :=
              { type := "movie", username := some username, message := message,
                timestamp := now, special_data := some (.url (addScheme (pyStrip rest))) }
            ({ st with chat_history := historyAppend st.chat_history msg_obj },
             [.newMessageAll msg_obj])
          | none =>
            let msg_obj : ChatMsg :=
              { type := "text", username := some username, message := movieHelpText,
                timestamp := now, special_data := none }
            ({ st with chat_history := historyAppend st.chat_history msg_obj },
             [.newMessageAll msg_obj])
        else if pyStartsWith message "@川小农" then
          match (splitOnceStr message).2 with
          | some rest =>
            let msg_obj : ChatMsg :=
              { type := "ai_chat", username := some username, message := message,
                timestamp := now, special_data := some (.question rest) }
            match responder (pyStrip rest) with
            | some reply =>
              let ai_response : ChatMsg :=
                { type := "ai_reply", username := some "川小农", message := reply,
                  timestamp := now, special_data := none }
              let hist1 := historyAppend st.chat_history ai_response
              ({ st with chat_history := historyAppend hist1 msg_obj },
               [.newMessageAll ai_response, .newMessageAll msg_obj])
            | none =>
              let error_msg : ChatMsg :=
                { type := "system", username := none, message := aiFailText,
                  timestamp := now, special_data := none }
              ({ st with chat_history := historyAppend st.chat_history msg_obj },
               [.newMessageTo sid error_msg, .newMessageAll msg_obj])
          | none =>
            let msg_obj : ChatMsg :=
              { type := "text", username := some username, message := aiHelpText,
                timestamp := now, special_data := none }
            ({ st with chat_history := historyAppend st.chat_history msg_obj },
             [.newMessageAll msg_obj])
        else
          let msg_obj : ChatMsg :=
            { type := "text", username := some username, message := message,
              timestamp := now, special_data := none }
          ({ st with chat_history := historyAppend st.chat_history msg_obj },
           [.newMessageAll msg_obj])

/-- The `leave` Socket.IO handler (src/app.py lines 365-387). Note that it
identifies the session to remove purely from the payload's username; the
requesting connection's `sid` is only used implicitly by `include_self=False`
in the broadcast. -/
def handle_leave (st : ServerState) (sid : Nat) (payload : Option String) :
    ServerState × List Out :=
  match payload with
  | none => (st, [])
  | some username =>
    if dictHas st.online_users username then
      let users2 := dictErase st.online_users username
      ({ st with online_users := users2 },
       [.userLeft sid username (users2.map Prod.fst)])
    else (st, [])

/-- The `disconnect` Socket.IO handler (src/app.py lines 102-127): scans
`online_users` in insertion order for the first entry bound to the
disconnecting `sid` and removes it. -/
def handle_disconnect (st : ServerState) (sid : Nat) : ServerState × List Out :=
  match st.online_users.find? (fun p => p.2.sid == sid) with
  | some p =>
      let users2 := dictErase st.online_users p.1
      ({ st with online_users := users2 },
       [.userLeft sid p.1 (users2.map Prod.fst)])
  | none => (st, [])

/-- Response body of the `/check_username` endpoint. -/
structure CheckResp where
  taken : Bool
  available : Bool
deriving DecidableEq

/-- The `/check_username` endpoint (src/app.py lines 71-91): strips the query
string and tests membership in `online_users`. It reads the state and builds a
response; no state is produced. -/
def check_username (st : ServerState) (username : String) : CheckResp :=
  let u := pyStrip username
  { taken := dictHas st.online_users u,
    available := !(dictHas st.online_users u) }

/-- An inbound client event, as dispatched to the handlers above. -/
inductive Event where
  | join (sid now : Nat) (payload : Option String)
  | message (sid now : Nat) (payload : Option (String × String))
  | leave (sid : Nat) (payload : Option String)
  | disconnect (sid : Nat)

/-- Dispatch one inbound event to its handler. -/
def step (responder : String → Option String) (st : ServerState) (e : Event) :
    ServerState × List Out :=
  match e with
  | .join sid now payload => handle_join st sid now payload
  | .message sid now payload => handle_message responder st sid now payload
  | .leave sid payload => handle_leave st sid payload
  | .disconnect sid => handle_disconnect st sid

/-- Run a sequence of inbound events from a starting state. -/
def run (responder : String → Option String) (st : ServerState)
    (es : List Event) : ServerState :=
  es.foldl (fun s e => (step responder s e).1) st

/-! ### Helper predicates over outbound deliveries -/

/-- Whether an outbound delivery is a kicked notice. -/
def isKicked : Out → Bool
  | .kicked _ => true
  | _ => false

/-- Whether an outbound delivery is a kicked notice to a given connection. -/
def isKickedTo (target : Nat) : Out → Bool
  | .kicked s => s == target
  | _ => false

/-- Whether an outbound delivery is an error notice. -/
def isErrorOut : Out → Bool
  | .errorTo _ _ => true
  | _ => false

/-- Number of kicked notices among a handler's deliveries. -/
def countKicked (outs : List Out) : Nat := (outs.filter isKicked).length

/-- Number of kicked notices to a given connection. -/
def countKickedTo (outs : List Out) (target : Nat) : Nat :=
  (outs.filter (isKickedTo target)).length

/-- Number of error notices among a handler's deliveries. -/
def countErrorOuts (outs : List Out) : Nat := (outs.filter isErrorOut).length

/-! ### Registry lemmas -/

theorem dictHas_eq_false_iff (d : Registry) (k : String) :
    dictHas d k = false ↔ ∀ p ∈ d, p.1 ≠ k := by
  unfold dictHas
  rw [← Bool.not_eq_true, List.any_eq_true]
  constructor
  · intro h p hp hk
    exact h ⟨p, hp, by simp [hk]⟩
  · rintro h ⟨p, hp, hk⟩
    exact h p hp (by simpa using hk)

theorem not_mem_keys_of_dictHas_eq_false {d : Registry} {k : String}
    (h : dictHas d k = false) : k ∉ d.map Prod.fst := by
  intro hm
  rcases List.mem_map.mp hm with ⟨p, hp, hpk⟩
  exact (dictHas_eq_false_iff d k).mp h p hp hpk

theorem keys_dictSet (d : Registry) (k : String) (v : Session) :
    (dictSet d k v).map Prod.fst =
      if dictHas d k then d.map Prod.fst else d.map Prod.fst ++ [k] := by
  unfold dictSet
  split
  · rw [List.map_map]
    congr 1
    funext p
    by_cases h : p.1 = k
    · simp [h]
    · simp [h]
  · simp

theorem nodup_keys_dictSet (d : Registry) (k : String) (v : Session)
    (h : (d.map Prod.fst).Nodup) : ((dictSet d k v).map Prod.fst).Nodup := by
  rw [keys_dictSet]
  split
  · exact h
  · rename_i hk
    rw [List.nodup_append]
    refine ⟨h, List.nodup_singleton k, ?_⟩
    intro a ha hb
    rw [List.mem_singleton] at hb
    subst hb
    exact not_mem_keys_of_dictHas_eq_false (Bool.not_eq_true _ ▸ hk) ha

theorem nodup_keys_dictErase (d : Registry) (k : String)
    (h : (d.map Prod.fst).Nodup) : ((dictErase d k).map Prod.fst).Nodup :=
  h.sublist ((List.filter_sublist d).map Prod.fst)

theorem dictHas_cons (p : String × Session) (t : List (String × Session))
    (k : String) : dictHas (p :: t) k = (p.1 == k || dictHas t k) := by
  simp [dictHas]

theorem find?_map_update (d : Registry) (k : String) (v : Session)
    (h : dictHas d k = true) :
    (d.map (fun p => if p.1 == k then (k, v) else p)).find? (fun p => p.1 == k)
      = some (k, v) := by
  induction d with
  | nil => simp [dictHas] at h
  | cons p t ih =>
    rw [List.map_cons]
    by_cases hp : p.1 = k
    · rw [if_pos (by simpa using hp), List.find?_cons_of_pos _ (by simp)]
    · rw [if_neg (by simpa using hp),
        List.find?_cons_of_neg _ (by simpa using hp)]
      apply ih
      rw [dictHas_cons] at h
      rcases Bool.or_eq_true_iff.mp h with h1 | h1
      · exact absurd (by simpa using h1) hp
      · exact h1

theorem find?_append_right (d : Registry) (k : String) (v : Session)
    (h : dictHas d k = false) :
    (d ++ [(k, v)]).find? (fun p => p.1 == k) = some (k, v) := by
  induction d with
  | nil => simp
  | cons p t ih =>
    have hp : p.1 ≠ k := (dictHas_eq_false_iff _ _).mp h p (by simp)
    have ht : dictHas t k = false := by
      rw [dictHas_eq_false_iff] at h ⊢
      intro q hq
      exact h q (by simp [hq])
    rw [List.cons_append, List.find?_cons_of_neg _ (by simpa using hp)]
    exact ih ht

theorem dictGet_dictSet (d : Registry) (k : String) (v : Session) :
    dictGet (dictSet d k v) k = some v := by
  unfold dictGet dictSet
  split
  · rename_i h
    rw [find?_map_update d k v h]
    rfl
  · rename_i h
    rw [find?_append_right d k v (Bool.not_eq_true _ ▸ h)]
    rfl

theorem dictHas_of_dictGet_eq_some {d : Registry} {k : String} {v : Session}
    (h : dictGet d k = some v) : dictHas d k = true := by
  unfold dictGet at h
  rcases Option.map_eq_some'.mp h with ⟨p, hfind, _⟩
  have hp := List.find?_some hfind
  have hm := List.mem_of_find?_eq_some hfind
  unfold dictHas
  rw [List.any_eq_true]
  exact ⟨p, hm, hp⟩

theorem dictHas_dictSet_self (d : Registry) (k : String) (v : Session) :
    dictHas (dictSet d k v) k = true :=
  dictHas_of_dictGet_eq_some (dictGet_dictSet d k v)

/-! ### State-shape lemmas for the handlers -/

theorem handle_message_online_users (r : String → Option String)
    (st : ServerState) (sid now : Nat) (p : Option (String × String)) :
    (handle_message r st sid now p).1.online_users = st.online_users := by
  unfold handle_message
  cases p with
  | none => rfl
  | some up =>
    obtain ⟨u, m⟩ := up
    dsimp only
    split
    · rfl
    · split
      · rfl
      · split
        · split <;> rfl
        · split
          · split
            · split <;> rfl
            · rfl
          · rfl

theorem nodup_keys_step (r : String → Option String) (st : ServerState)
    (e : Event) (h : (st.online_users.map Prod.fst).Nodup) :
    ((step r st e).1.online_users.map Prod.fst).Nodup := by
  cases e with
  | join sid now payload =>
    cases payload with
    | none => exact h
    | some name =>
      show ((handle_join st sid now (some name)).1.online_users.map Prod.fst).Nodup
      unfold handle_join
      dsimp only
      split
      · exact h
      · exact nodup_keys_dictSet _ _ _ h
  | message sid now payload =>
    show ((handle_message r st sid now payload).1.online_users.map Prod.fst).Nodup
    rw [handle_message_online_users]
    exact h
  | leave sid payload =>
    cases payload with
    | none => exact h
    | some name =>
      show ((handle_leave st sid (some name)).1.online_users.map Prod.fst).Nodup
      unfold handle_leave
      dsimp only
      split
      · exact nodup_keys_dictErase _ _ h
      · exact h
  | disconnect sid =>
    show ((handle_disconnect st sid).1.online_users.map Prod.fst).Nodup
    unfold handle_disconnect
    split
    · exact nodup_keys_dictErase _ _ h
    · exact h

/-- C1: for every sequence of inbound events starting from the empty server,
the session registry keys (the normalized display names) are pairwise
distinct — at most one active session per name; a join for a registered name
rebinds that entry (`dictSet` updates in place) rather than adding a second
one. -/
theorem registry_name_uniqueness (r : String → Option String)
    (es : List Event) :
    ((run r ⟨[], []⟩ es).online_users.map Prod.fst).Nodup := by
  have key : ∀ (es : List Event) (st : ServerState),
      (st.online_users.map Prod.fst).Nodup →
      ((run r st es).online_users.map Prod.fst).Nodup := by
    intro es
    induction es with
    | nil => intro st h; exact h
    | cons e t ih =>
      intro st h
      exact ih ((step r st e).1) (nodup_keys_step r st e h)
  exact key es ⟨[], []⟩ (by simp)

/-! ### The bounded FIFO log -/

theorem foldl_historyAppend_eq_drop (msgs : List ChatMsg) :
    msgs.foldl historyAppend [] = msgs.drop (msgs.length - 100) := by
  induction msgs using List.reverseRecOn with
  | nil => rfl
  | append_singleton l e ih =>
    rw [List.foldl_append, List.foldl_cons, List.foldl_nil, ih]
    rcases Nat.lt_or_ge l.length 100 with hn | hn
    · have h0 : l.length - 100 = 0 := by omega
      have h1 : (l ++ [e]).length - 100 = 0 := by
        rw [List.length_append]
        simp
        omega
      rw [h0, h1, List.drop_zero, List.drop_zero]
      unfold historyAppend
      rw [if_neg]
      rw [List.length_append]
      simp
      omega
    · have hp : (List.drop (l.length - 100) l).length = 100 := by
        rw [List.length_drop]
        omega
      unfold historyAppend
      rw [if_pos (by rw [List.length_append, hp]; simp)]
      rw [List.drop_append_of_le_length (by omega : 1 ≤ (List.drop (l.length - 100) l).length)]
      rw [List.drop_drop]
      rw [List.drop_append_of_le_length
        (by rw [List.length_append, List.length_singleton]; omega)]
      have : l.length - 100 + 1 = (l ++ [e]).length - 100 := by
        rw [List.length_append]
        simp
        omega
      rw [this]

/-- C2: after any sequence of appends through the code's append-then-trim
sequence (`historyAppend`, used at every log-append site: the welcome event on
join, the classified message event, and the ai-reply event), the log holds at
most 100 entries, and those entries are exactly the most recent at-most-100
appended events in insertion order — eviction happens only at the head. -/
theorem log_bound_fifo (msgs : List ChatMsg) :
    (msgs.foldl historyAppend []).length ≤ 100 ∧
    msgs.foldl historyAppend [] = msgs.drop (msgs.length - 100) := by
  refine ⟨?_, foldl_historyAppend_eq_drop msgs⟩
  rw [foldl_historyAppend_eq_drop msgs, List.length_drop]
  omega

/-! ### Message authorization (C3) -/

/-- C3 counterexample: connection 2 is in the Connected state — no registry
entry is bound to sid 2 — yet its `send_message` carrying the registered name
"Alice" is accepted: the log gains the message and it is broadcast to the
room. The handler checks only the payload username, never the sender's
connection id. -/
theorem unauthorized_message_cex :
    (([("Alice", ⟨1, 0⟩)] : Registry).all (fun p => p.2.sid != 2)) = true ∧
    handle_message (fun _ => none) ⟨[("Alice", ⟨1, 0⟩)], []⟩ 2 0
        (some ("Alice", "hi")) =
      (⟨[("Alice", ⟨1, 0⟩)], [⟨"text", some "Alice", "hi", 0, none⟩]⟩,
       [.newMessageAll ⟨"text", some "Alice", "hi", 0, none⟩]) := by
  decide

/-- C3 (amended): a `send_message` is rejected — error notice to the sender,
state unchanged, nothing broadcast — exactly when its payload username is not
a registered session; the sender's own connection state is never consulted. -/
theorem unauthorized_message_rejected (r : String → Option String)
    (st : ServerState) (sid now : Nat) (u m : String)
    (h : dictHas st.online_users u = false) :
    handle_message r st sid now (some (u, m)) =
      (st, [.errorTo sid "请先加入聊天室"]) := by
  unfold handle_message
  dsimp only
  rw [h]
  simp

/-- C3 witness: the rejection branch at a concrete non-registered name. -/
theorem unauthorized_message_rejected_witness :
    dictHas ([("Alice", ⟨1, 0⟩)] : Registry) "Bob" = false ∧
    handle_message (fun _ => none) ⟨[("Alice", ⟨1, 0⟩)], []⟩ 2 0
        (some ("Bob", "hi")) =
      (⟨[("Alice", ⟨1, 0⟩)], []⟩, [.errorTo 2 "请先加入聊天室"]) :=
  ⟨by decide,
   unauthorized_message_rejected (fun _ => none) ⟨[("Alice", ⟨1, 0⟩)], []⟩ 2 0
     "Bob" "hi" (by decide)⟩

/-! ### Reconnection supersession (C4) -/

/-- C4: joining a name that is already registered rebinds the registry entry
to the new connection; the prior connection receives exactly one kicked
notice when it differs from the joining one, and none when the join comes
from the same connection (a re-join). -/
theorem join_supersede (st : ServerState) (sid now : Nat) (name : String)
    (old : Session) (hname : pyStrip name ≠ "")
    (hold : dictGet st.online_users (cleanName name) = some old) :
    dictGet (handle_join st sid now (some name)).1.online_users (cleanName name)
      = some ⟨sid, now⟩ ∧
    countKickedTo (handle_join st sid now (some name)).2 old.sid
      = (if old.sid = sid then 0 else 1) ∧
    countKicked (handle_join st sid now (some name)).2
      = (if old.sid = sid then 0 else 1) := by
  unfold handle_join
  dsimp only
  rw [if_neg hname]
  dsimp only
  rw [hold]
  refine ⟨dictGet_dictSet _ _ _, ?_, ?_⟩ <;>
    by_cases hs : old.sid = sid <;>
      simp [hs, countKickedTo, countKicked, isKickedTo, isKicked]

/-- C4 witness: "Bob" is held by connection 1 and rejoins from connection 2:
the entry is rebound to connection 2 and exactly one kicked notice goes to
connection 1. -/
theorem join_supersede_witness :
    (pyStrip "Bob" ≠ "" ∧
     dictGet ([("Bob", ⟨1, 0⟩)] : Registry) (cleanName "Bob") = some ⟨1, 0⟩) ∧
    (dictGet (handle_join ⟨[("Bob", ⟨1, 0⟩)], []⟩ 2 5 (some "Bob")).1.online_users
        (cleanName "Bob") = some ⟨2, 5⟩ ∧
     countKickedTo (handle_join ⟨[("Bob", ⟨1, 0⟩)], []⟩ 2 5 (some "Bob")).2
        (Session.mk 1 0).sid = (if (Session.mk 1 0).sid = 2 then 0 else 1) ∧
     countKicked (handle_join ⟨[("Bob", ⟨1, 0⟩)], []⟩ 2 5 (some "Bob")).2
        = (if (Session.mk 1 0).sid = 2 then 0 else 1)) :=
  ⟨⟨by decide, by decide⟩,
   join_supersede ⟨[("Bob", ⟨1, 0⟩)], []⟩ 2 5 "Bob" ⟨1, 0⟩ (by decide) (by decide)⟩

/-! ### Join-time name validation (C5) -/

/-- C5 counterexample: the input "!!!" is non-blank, so it passes the
pre-normalization emptiness check, but normalization strips every character;
contrary to the claim, the join does not fail: no error notice is sent and a
session is registered under the empty display name. -/
theorem join_empty_normalized_cex :
    cleanName "!!!" = "" ∧
    dictHas (handle_join ⟨[], []⟩ 1 0 (some "!!!")).1.online_users "" = true ∧
    countErrorOuts (handle_join ⟨[], []⟩ 1 0 (some "!!!")).2 = 0 := by
  decide

/-- C5 (amended): the emptiness check runs on the raw name before
normalization; any name that is non-blank before normalization always
registers a session under its normalized form, with no error — even when the
normalized form is the empty string. -/
theorem join_validation_amended (st : ServerState) (sid now : Nat)
    (name : String) (h : pyStrip name ≠ "") :
    dictHas (handle_join st sid now (some name)).1.online_users (cleanName name)
      = true ∧
    countErrorOuts (handle_join st sid now (some name)).2 = 0 := by
  unfold handle_join
  dsimp only
  rw [if_neg h]
  dsimp only
  refine ⟨dictHas_dictSet_self _ _ _, ?_⟩
  cases hg : dictGet st.online_users (cleanName name) with
  | none => simp [countErrorOuts, isErrorOut]
  | some old =>
    by_cases hs : old.sid = sid <;>
      simp [hs, countErrorOuts, isErrorOut]

/-- C5 witness: the amended behaviour at the counterexample input "!!!". -/
theorem join_validation_amended_witness :
    pyStrip "!!!" ≠ "" ∧
    (dictHas (handle_join ⟨[], []⟩ 1 0 (some "!!!")).1.online_users
        (cleanName "!!!") = true ∧
     countErrorOuts (handle_join ⟨[], []⟩ 1 0 (some "!!!")).2 = 0) :=
  ⟨by decide, join_validation_amended ⟨[], []⟩ 1 0 "!!!" (by decide)⟩

/-! ### Responder failure (C6) -/

/-- C6 counterexample: connection 1 (user "A") sends an ai-question and the
responder fails. The system error event is emitted to the sender only — but
contrary to the claim it is never appended to the log: the final log contains
no system-typed entry at all, only the original ai-question event. -/
theorem ai_failure_not_logged_cex :
    ((handle_message (fun _ => none) ⟨[("A", ⟨1, 0⟩)], []⟩ 1 0
        (some ("A", "@川小农 hi"))).1.chat_history.all
          (fun msg => msg.type != "system")) = true ∧
    (handle_message (fun _ => none) ⟨[("A", ⟨1, 0⟩)], []⟩ 1 0
        (some ("A", "@川小农 hi"))).2 =
      [.newMessageTo 1 ⟨"system", none, aiFailText, 0, none⟩,
       .newMessageAll ⟨"ai_chat", some "A", "@川小农 hi", 0, some (.question "hi")⟩] := by
  decide

/-- C6 (amended): when the responder fails on an accepted ai-question, the
system error event is delivered to the sending connection only, in place of
the ai-reply — but it is not appended to the log; the log receives only the
original ai-question event. -/
theorem ai_failure_error_to_sender_only (r : String → Option String)
    (st : ServerState) (sid now : Nat) (u m0 m q : String)
    (h1 : dictHas st.online_users u = true)
    (h2 : preprocessMessage m0 = some m)
    (h3 : pyStartsWith m "@电影" = false)
    (h4 : pyStartsWith m "@川小农" = true)
    (h5 : (splitOnceStr m).2 = some q)
    (h6 : r (pyStrip q) = none) :
    handle_message r st sid now (some (u, m0)) =
      ({ st with chat_history := historyAppend st.chat_history ⟨"ai_chat", some u, m, now, some (.question q)⟩ },
       [.newMessageTo sid ⟨"system", none, aiFailText, now, none⟩,
        .newMessageAll ⟨"ai_chat", some u, m, now, some (.question q)⟩]) := by
  unfold handle_message
  dsimp only
  rw [h1]
  simp only [Bool.true_eq_false, if_false]
  rw [h2]
  dsimp only
  rw [h3]
  simp only [Bool.false_eq_true, if_false]
  rw [h4]
  simp only [if_true]
  rw [h5]
  dsimp only
  rw [h6]

/-- C6 witness: the amended behaviour at the concrete failing input. -/
theorem ai_failure_error_to_sender_only_witness :
    (dictHas ([("A", ⟨1, 0⟩)] : Registry) "A" = true ∧
     preprocessMessage "@川小农 hi" = some "@川小农 hi" ∧
     pyStartsWith "@川小农 hi" "@电影" = false ∧
     pyStartsWith "@川小农 hi" "@川小农" = true ∧
     (splitOnceStr "@川小农 hi").2 = some "hi") ∧
    handle_message (fun _ => none) ⟨[("A", ⟨1, 0⟩)], []⟩ 1 0
        (some ("A", "@川小农 hi")) =
      (⟨[("A", ⟨1, 0⟩)], [⟨"ai_chat", some "A", "@川小农 hi", 0, some (.question "hi")⟩]⟩,
       [.newMessageTo 1 ⟨"system", none, aiFailText, 0, none⟩,
        .newMessageAll ⟨"ai_chat", some "A", "@川小农 hi", 0, some (.question "hi")⟩]) :=
  ⟨⟨by decide, by decide, by decide, by decide, by decide⟩,
   Eq.trans
     (ai_failure_error_to_sender_only (fun _ => none) ⟨[("A", ⟨1, 0⟩)], []⟩ 1 0
       "A" "@川小农 hi" "@川小农 hi" "hi"
       (by decide) (by decide) (by decide) (by decide) (by decide) rfl)
     (by decide)⟩

/-! ### Display-name character set (C7) -/

/-- The character set the claim asserts for normalized names: alphanumerics
(Python's `isalnum`, which includes the CJK ideographs), spaces, underscores,
and CJK ideographs (U+4E00..U+9FA5). -/
def claimedNameChar (c : Char) : Bool :=
  pyIsAlnum c || c == ' ' || c == '_' || ('一' ≤ c && c ≤ '龥')

/-- C7 counterexample: the hyphen survives normalization — `cleanName` keeps
"a-b" intact — yet the hyphen is not an alphanumeric, a space, an underscore,
or a CJK ideograph. It is kept because the source tests membership in the
literal five-character string `' _一-龥'`, which contains `'-'`. -/
theorem name_charset_cex :
    cleanName "a-b" = "a-b" ∧
    ((cleanName "a-b").toList.all claimedNameChar) = false := by
  decide

/-- C7 (amended): every character of a normalized display name is an
alphanumeric, a space, an underscore, a CJK ideograph — or the hyphen-minus,
which the literal membership string also admits. -/
theorem name_charset_amended (s : String) :
    ((cleanName s).toList.all (fun c => claimedNameChar c || c == '-')) = true := by
  rw [List.all_eq_true]
  intro c hc
  have hk : nameFilterKeep c = true := (List.mem_filter.mp hc).2
  rw [nameFilterKeep, Bool.or_eq_true_iff] at hk
  rcases hk with h | h
  · simp [claimedNameChar, h]
  · have hlist : nameExtraChars = [' ', '_', '一', '-', '龥'] := by decide
    rw [hlist] at h
    have hmem : c = ' ' ∨ c = '_' ∨ c = '一' ∨ c = '-' ∨ c = '龥' := by
      simpa using h
    rcases hmem with rfl | rfl | rfl | rfl | rfl <;> decide

/-! ### Movie command (C8) -/

/-- C8: an accepted message with the movie prefix is classified as a movie
share when an argument follows the first space: its attachment URL is the
stripped argument with "http://" prepended when no scheme is present; with no
argument, a text instructional event is produced instead. In both cases the
event is appended to the log and broadcast to the room. -/
theorem movie_command_classified (r : String → Option String)
    (st : ServerState) (sid now : Nat) (u m0 m : String)
    (h1 : dictHas st.online_users u = true)
    (h2 : preprocessMessage m0 = some m)
    (h3 : pyStartsWith m "@电影" = true) :
    handle_message r st sid now (some (u, m0)) =
      (match (splitOnceStr m).2 with
       | some rest =>
         ({ st with chat_history := historyAppend st.chat_history ⟨"movie", some u, m, now, some (.url (addScheme (pyStrip rest)))⟩ },
          [.newMessageAll ⟨"movie", some u, m, now, some (.url (addScheme (pyStrip rest)))⟩])
       | none =>
         ({ st with chat_history := historyAppend st.chat_history ⟨"text", some u, movieHelpText, now, none⟩ },
          [.newMessageAll ⟨"text", some u, movieHelpText, now, none⟩])) := by
  unfold handle_message
  dsimp only
  rw [h1]
  simp only [Bool.true_eq_false, if_false]
  rw [h2]
  dsimp only
  rw [h3]
  simp only [if_true]

/-- C8 witness: the claim's own example — `@电影 vid.example/x` from the
registered user "Bob" yields a movie event whose attachment URL is
"http://vid.example/x" (default scheme prepended), appended and broadcast. -/
theorem movie_command_classified_witness :
    (dictHas ([("Bob", ⟨1, 0⟩)] : Registry) "Bob" = true ∧
     preprocessMessage "@电影 vid.example/x" = some "@电影 vid.example/x" ∧
     pyStartsWith "@电影 vid.example/x" "@电影" = true) ∧
    handle_message (fun _ => none) ⟨[("Bob", ⟨1, 0⟩)], []⟩ 7 0
        (some ("Bob", "@电影 vid.example/x")) =
      (⟨[("Bob", ⟨1, 0⟩)],
        [⟨"movie", some "Bob", "@电影 vid.example/x", 0, some (.url "http://vid.example/x")⟩]⟩,
       [.newMessageAll
          ⟨"movie", some "Bob", "@电影 vid.example/x", 0, some (.url "http://vid.example/x")⟩]) :=
  ⟨⟨by decide, by decide, by decide⟩,
   Eq.trans
     (movie_command_classified (fun _ => none) ⟨[("Bob", ⟨1, 0⟩)], []⟩ 7 0
       "Bob" "@电影 vid.example/x" "@电影 vid.example/x"
       (by decide) (by decide) (by decide))
     (by decide)⟩

/-! ### Name availability query (C9) -/

/-- C9 counterexample: joining with the raw name "! a" registers the session
under the normalized name " a" (the bang is stripped, the interior space
kept). Querying `check_username` for exactly " a" reports the name available,
because the endpoint strips the query before the lookup — so a name held
verbatim by an active session is reported as not taken, refuting the claimed
iff. -/
theorem check_username_cex :
    dictHas (handle_join ⟨[], []⟩ 1 0 (some "! a")).1.online_users " a" = true ∧
    (check_username (handle_join ⟨[], []⟩ 1 0 (some "! a")).1 " a").available
      = true := by
  decide

/-- C9 (amended): `check_username` reports a name available exactly when no
active session holds the stripped query name (and `taken` is its negation);
it reads the registry and builds a response without producing any state. -/
theorem check_username_amended (st : ServerState) (name : String) :
    ((check_username st name).available = true ↔
      ∀ p ∈ st.online_users, p.1 ≠ pyStrip name) ∧
    (check_username st name).taken = !(check_username st name).available := by
  constructor
  · unfold check_username
    dsimp only
    rw [Bool.not_eq_true']
    exact dictHas_eq_false_iff st.online_users (pyStrip name)
  · unfold check_username
    dsimp only
    rw [Bool.not_not]

/-! ### Leave by name only (C10) -/

/-- C10: a leave event whose payload names a registered session removes that
session and broadcasts `user_left` (to everyone but the requester) no matter
which connection sent it: the handler never compares the requesting
connection id with the one bound to the name, so the resulting state is the
same for every requesting connection. -/
theorem leave_any_connection (st : ServerState) (sid : Nat) (name : String)
    (h : dictHas st.online_users name = true) :
    (handle_leave st sid (some name)).1.online_users
      = dictErase st.online_users name ∧
    (handle_leave st sid (some name)).2 =
      [.userLeft sid name ((dictErase st.online_users name).map Prod.fst)] ∧
    ∀ sid2 : Nat, (handle_leave st sid2 (some name)).1
      = (handle_leave st sid (some name)).1 := by
  refine ⟨?_, ?_, ?_⟩ <;> simp [handle_leave, h]

/-- C10 witness: connection 99 — not the one holding "Alice" — removes
Alice's session by name. -/
theorem leave_any_connection_witness :
    dictHas ([("Alice", ⟨1, 0⟩)] : Registry) "Alice" = true ∧
    ((handle_leave ⟨[("Alice", ⟨1, 0⟩)], []⟩ 99 (some "Alice")).1.online_users
        = dictErase [("Alice", ⟨1, 0⟩)] "Alice" ∧
     (handle_leave ⟨[("Alice", ⟨1, 0⟩)], []⟩ 99 (some "Alice")).2 =
       [.userLeft 99 "Alice" ((dictErase [("Alice", ⟨1, 0⟩)] "Alice").map Prod.fst)] ∧
     ∀ sid2 : Nat, (handle_leave ⟨[("Alice", ⟨1, 0⟩)], []⟩ sid2 (some "Alice")).1
       = (handle_leave ⟨[("Alice", ⟨1, 0⟩)], []⟩ 99 (some "Alice")).1) :=
  ⟨by decide, leave_any_connection ⟨[("Alice", ⟨1, 0⟩)], []⟩ 99 "Alice" (by decide)⟩

end AmazingChat
